import Mathlib

set_option maxRecDepth 10000

/-!
Verification of the TPM2 quote decoding and verification core
(lib/tpm2_util.c and tools/misc/tpm2_checkquote.c).

The decoder `tpm2_util_get_digest_from_quote` is embedded as a pure
function over the attestation bytes (a list of byte values whose length
is the blob's declared `size`), threading the two out-parameters
(`digest`, `extraData`) explicitly.  Every `memcpy` from the blob goes
through `readBytes`, which yields `none` exactly when the copy would
read past the end of the buffer; the decoder surfaces that case as the
distinguished outcome `QuoteOut.oob` (undefined behaviour in the C
code), so "the decoder never reads out of bounds" is the theorem that
`.oob` is unreachable.  The successful outcome additionally records the
byte offset of the final digest field (the value of the C cursor `i`
when the `// Digest` section is reached) as a ghost observation used to
state truncation properties; the C function does not return it.

Multi-byte fields are read with `memcpy` and then byte-swapped iff the
host is little-endian; on either host the resulting value is the
big-endian interpretation of the bytes, which is what `beVal` computes.
-/

/-- A TPM2B-style sized buffer: a 16-bit `size` field and a byte array.
The byte array region is modelled as a list; the fixed capacity of the
C arrays (`sizeof(TPMU_HA)` for `TPM2B_DIGEST`/`TPM2B_DATA`) is the
separate constant `sizeof_TPMU_HA`. -/
structure TPM2B where
  size : Nat
  buffer : List Nat
  deriving DecidableEq

/-- Modelled from the spec: the TPM-generated magic constant
(`TPM2_GENERATED_VALUE` from the TSS headers, `0xFF544347`). -/
def TPM2_GENERATED_VALUE : Nat := 0xff544347

/-- Modelled from the spec: the attestation-type constant for quotes
(`TPM2_ST_ATTEST_QUOTE` from the TSS headers, `0x8018`). -/
def TPM2_ST_ATTEST_QUOTE : Nat := 0x8018

/-- Modelled from the spec: the capacity of the `buffer` array of
`TPM2B_DIGEST` and `TPM2B_DATA` in the TSS headers, `sizeof(TPMU_HA)`,
which is 64 bytes (the largest digest, SHA-512). -/
def sizeof_TPMU_HA : Nat := 64

/-- Big-endian value of a byte list: the value a multi-byte `memcpy`
followed by the conditional `tpm2_util_endian_swap` produces on either
host endianness. -/
def beVal (bs : List Nat) : Nat := bs.foldl (fun acc b => acc * 256 + b) 0

/-- A `memcpy(dst, &quoted->attestationData[off], n)` read of `n` bytes at
offset `off`; `none` when the copy would read past the end of the
buffer (undefined behaviour in C). -/
def readBytes (quoted : List Nat) (off n : Nat) : Option (List Nat) :=
  if off + n ≤ quoted.length then some ((quoted.drop off).take n) else none

/-- Outcome of one guarded read step inside the decoder. -/
inductive Read (α : Type) where
  | ok (v : α)
  | err
  | oob
  deriving DecidableEq

/-- The decoder's fixed-width header idiom (lines 49-56, 60-67, 92-99,
102-109, 112-116, 127-134 of tpm2_util.c): fail when
`i + width >= quoted->size`, otherwise `memcpy` `width` bytes at `i`
and byte-swap to host order (big-endian value). -/
def readHdr (quoted : List Nat) (i width : Nat) : Read Nat :=
  if i + width ≥ quoted.length then .err
  else
    match readBytes quoted i width with
    | some bs => .ok (beVal bs)
    | none => .oob

/-- The decoder's length-prefixed payload idiom (lines 68-72 and
136-140 of tpm2_util.c): fail when `len + i > quoted->size`, otherwise
`memcpy` `len` bytes at `i`. -/
def readPayload (quoted : List Nat) (len i : Nat) : Read (List Nat) :=
  if len + i > quoted.length then .err
  else
    match readBytes quoted i len with
    | some bs => .ok bs
    | none => .oob

/-- The PCR-selection skipping loop (lines 100-124 of tpm2_util.c): for
each of `count` entries read a 2-byte hash id and a 1-byte bitmap size
`sos`, then skip `sos` bitmap bytes, failing when the cursor reaches or
passes the end.  Returns the final cursor. -/
def pcrSelLoop (quoted : List Nat) : Nat → Nat → Read Nat
  | 0, i => .ok i
  | count + 1, i =>
    match readHdr quoted i 2 with
    | .err => .err
    | .oob => .oob
    | .ok _hashAlg =>
      match readHdr quoted (i + 2) 1 with
      | .err => .err
      | .oob => .oob
      | .ok sos =>
        if i + 2 + 1 + sos ≥ quoted.length then .err
        else pcrSelLoop quoted count (i + 2 + 1 + sos)

/-- Result of `tpm2_util_get_digest_from_quote`: `ok` is `return true`
(with the final values of the two out-parameters and, as a ghost
observation, the offset of the 2-byte digest size field), `fail` is
`return false` (with the final values of the out-parameters, which the
C function may have partially written), `oob` marks a `memcpy` that
would read outside the attestation buffer. -/
inductive QuoteOut where
  | ok (digest extraData : TPM2B) (digOff : Nat)
  | fail (digest extraData : TPM2B)
  | oob
  deriving DecidableEq

/-- lib/tpm2_util.c lines 19-143.  `quoted` is the attestation byte
buffer (its length is `quoted->size`); `digest` and `extraData` are the
caller's out-parameter structures on entry. -/
def tpm2_util_get_digest_from_quote (quoted : List Nat)
    (digest extraData : TPM2B) : QuoteOut :=
  -- Ensure required headers are at least there
  if quoted.length < 6 then .fail digest extraData
  else
    match readBytes quoted 0 4, readBytes quoted 4 2 with
    | some magicBytes, some typeBytes =>
      let magic := beVal magicBytes
      let type := beVal typeBytes
      if magic ≠ TPM2_GENERATED_VALUE then .fail digest extraData
      else if type ≠ TPM2_ST_ATTEST_QUOTE then .fail digest extraData
      else
        -- Qualified signer name (skip); cursor i = 6
        match readHdr quoted 6 2 with
        | .err => .fail digest extraData
        | .oob => .oob
        | .ok nameSize =>
          -- Extra data; cursor i = 8 + nameSize
          match readHdr quoted (8 + nameSize) 2 with
          | .err => .fail digest extraData
          | .oob => .oob
          | .ok esize =>
            let extraData := { extraData with size := esize }
            match readPayload quoted esize (8 + nameSize + 2) with
            | .err => .fail digest extraData
            | .oob => .oob
            | .ok ebytes =>
              let extraData :=
                { extraData with buffer := ebytes ++ extraData.buffer.drop esize }
              -- Clock info (skip 17) then check
              if 8 + nameSize + 2 + esize + 17 ≥ quoted.length then
                .fail digest extraData
              else
                -- Firmware info (skip 8) then check
                if 8 + nameSize + 2 + esize + 17 + 8 ≥ quoted.length then
                  .fail digest extraData
                else
                  -- PCR select info
                  match readHdr quoted (8 + nameSize + 2 + esize + 17 + 8) 4 with
                  | .err => .fail digest extraData
                  | .oob => .oob
                  | .ok pcrSelCount =>
                    match pcrSelLoop quoted pcrSelCount
                        (8 + nameSize + 2 + esize + 17 + 8 + 4) with
                    | .err => .fail digest extraData
                    | .oob => .oob
                    | .ok i =>
                      -- Digest
                      match readHdr quoted i 2 with
                      | .err => .fail digest extraData
                      | .oob => .oob
                      | .ok dsize =>
                        let digest := { digest with size := dsize }
                        match readPayload quoted dsize (i + 2) with
                        | .err => .fail digest extraData
                        | .oob => .oob
                        | .ok dbytes =>
                          .ok { digest with
                                  buffer := dbytes ++ digest.buffer.drop dsize }
                            extraData i
    | _, _ => .oob

/-- lib/tpm2_util.c lines 146-164: size equality then byte-wise
comparison of the first `size` bytes. -/
def tpm2_util_verify_digests (quoteDigest pcrDigest : TPM2B) : Bool :=
  if quoteDigest.size ≠ pcrDigest.size then false
  else
    (List.range quoteDigest.size).all
      (fun k => quoteDigest.buffer.getD k 0 == pcrDigest.buffer.getD k 0)

/-- lib/tpm2_util.c lines 335-352, instantiated at 16 bits: reverse the
two bytes of the value (the value-level effect of reversing the
in-memory bytes, on either host endianness). -/
def tpm2_util_endian_swap_16 (data : Nat) : Nat :=
  data % 256 * 256 + data / 256 % 256

/-- lib/tpm2_util.c lines 335-352, instantiated at 32 bits. -/
def tpm2_util_endian_swap_32 (data : Nat) : Nat :=
  data % 256 * 16777216 + data / 256 % 256 * 65536 +
    data / 65536 % 256 * 256 + data / 16777216 % 256

/-- lib/tpm2_util.c lines 335-352, instantiated at 64 bits. -/
def tpm2_util_endian_swap_64 (data : Nat) : Nat :=
  data % 256 * 72057594037927936 +
    data / 256 % 256 * 281474976710656 +
    data / 65536 % 256 * 1099511627776 +
    data / 16777216 % 256 * 4294967296 +
    data / 4294967296 % 256 * 16777216 +
    data / 1099511627776 % 256 * 65536 +
    data / 281474976710656 % 256 * 256 +
    data / 72057594037927936 % 256

/-- lib/tpm2_util.c lines 354-367 at 16 bits.  The C code probes the
host's byte order at runtime with `tpm2_util_is_big_endian`; the probe
result is the explicit parameter `is_big_endian` here. -/
def tpm2_util_hton_16 (is_big_endian : Bool) (data : Nat) : Nat :=
  if is_big_endian then data else tpm2_util_endian_swap_16 data

/-- lib/tpm2_util.c lines 354-367 at 32 bits. -/
def tpm2_util_hton_32 (is_big_endian : Bool) (data : Nat) : Nat :=
  if is_big_endian then data else tpm2_util_endian_swap_32 data

/-- lib/tpm2_util.c lines 354-367 at 64 bits. -/
def tpm2_util_hton_64 (is_big_endian : Bool) (data : Nat) : Nat :=
  if is_big_endian then data else tpm2_util_endian_swap_64 data

/-- lib/tpm2_util.c lines 375-377: ntoh is the same operation as hton. -/
def tpm2_util_ntoh_16 (is_big_endian : Bool) (data : Nat) : Nat :=
  tpm2_util_hton_16 is_big_endian data

/-- lib/tpm2_util.c lines 379-381. -/
def tpm2_util_ntoh_32 (is_big_endian : Bool) (data : Nat) : Nat :=
  tpm2_util_hton_32 is_big_endian data

/-- lib/tpm2_util.c lines 382-384. -/
def tpm2_util_ntoh_64 (is_big_endian : Bool) (data : Nat) : Nat :=
  tpm2_util_hton_64 is_big_endian data

/-- Modelled from the spec: the identifier of the single supported
signature scheme, RSA PKCS#1 v1.5 (`TPM2_ALG_RSASSA`, `0x0014` in the
TSS headers). -/
def TPM2_ALG_RSASSA : Nat := 0x14

/-- The fields of `struct tpm2_verifysig_ctx`
(tools/misc/tpm2_checkquote.c lines 16-44) that `verify_signature`
reads: the loaded signature (its scheme tag, its RSASSA hash algorithm
and signature bytes), the computed message hash, the two optional-check
flags and the four digests/nonces the optional checks compare. -/
structure tpm2_verifysig_ctx where
  sigAlg : Nat
  sigHash : Nat
  sig : TPM2B
  msgHash : TPM2B
  flags_extra : Bool
  flags_pcr : Bool
  quoteExtraData : TPM2B
  extraData : TPM2B
  quoteHash : TPM2B
  pcrHash : TPM2B
  deriving DecidableEq

/-- tools/misc/tpm2_checkquote.c lines 56-118.  The external
collaborators are parameters: `pubKey` is the result of loading the
RSA public key from the PEM file (`none` when opening or loading
fails), `halgid_from_tpmhalg` is `tpm2_openssl_halgid_from_tpmhalg`,
and `RSA_verify hash msgBuf msgLen sigBuf sigLen key` is OpenSSL's
signature-verification primitive. -/
def verify_signature {κ : Type} (pubKey : Option κ)
    (halgid_from_tpmhalg : Nat → Nat)
    (RSA_verify : Nat → List Nat → Nat → List Nat → Nat → κ → Bool)
    (ctx : tpm2_verifysig_ctx) : Bool :=
  match pubKey with
  | none => false
  | some pk =>
    -- Get the signature ready: only RSASSA is supported
    if ctx.sigAlg ≠ TPM2_ALG_RSASSA then false
    -- Verify the signature matches message digest
    else if RSA_verify (halgid_from_tpmhalg ctx.sigHash)
        ctx.msgHash.buffer ctx.msgHash.size
        ctx.sig.buffer ctx.sig.size pk = false then false
    -- Ensure nonce is the same as given
    else if ctx.flags_extra ∧
        (ctx.quoteExtraData.size ≠ ctx.extraData.size ∨
          ctx.quoteExtraData.buffer.take ctx.extraData.size ≠
            ctx.extraData.buffer.take ctx.extraData.size) then false
    -- Also ensure digest from quote matches PCR digest
    else if ctx.flags_pcr ∧ ¬tpm2_util_verify_digests ctx.quoteHash ctx.pcrHash
        then false
    else true

/-- A caller-side `TPM2B_DIGEST`/`TPM2B_DATA` out-parameter as
initialized in `tpm2_verifysig_ctx` (size 0, a zeroed buffer of the
C array's capacity `sizeof(TPMU_HA)` = 64 bytes). -/
def zeroTPM2B : TPM2B := ⟨0, List.replicate sizeof_TPMU_HA 0⟩

/-- The 77-byte attestation blob of spec scenario 1: magic
`0xFF544347`, type `0x8018`, empty qualified name, 4-byte extra data
`0xDEADBEEF`, 17 zero clock bytes, 8 zero firmware bytes, zero
PCR-selection entries, and a 32-byte digest of `0xAA` bytes. -/
def scenario1Blob : List Nat :=
  [0xff, 0x54, 0x43, 0x47, 0x80, 0x18, 0, 0, 0, 4, 0xde, 0xad, 0xbe, 0xef] ++
    List.replicate 17 0 ++ List.replicate 8 0 ++ [0, 0, 0, 0] ++
    [0, 32] ++ List.replicate 32 0xaa

/-- A 171-byte attestation blob whose extra-data field declares 65
bytes (of `0x42`) and whose digest field declares 65 bytes (of `0x24`):
both declared lengths exceed the 64-byte capacity of the destination
arrays. -/
def oversizedBlob : List Nat :=
  [0xff, 0x54, 0x43, 0x47, 0x80, 0x18, 0, 0, 0, 65] ++
    List.replicate 65 0x42 ++
    List.replicate 17 0 ++ List.replicate 8 0 ++ [0, 0, 0, 0] ++
    [0, 65] ++ List.replicate 65 0x24

theorem readHdr_ne_oob (quoted : List Nat) (i width : Nat) :
    readHdr quoted i width ≠ .oob := by
  unfold readHdr
  split
  · simp
  · rename_i h
    rw [readBytes, if_pos (by omega)]
    simp

theorem readPayload_ne_oob (quoted : List Nat) (len i : Nat) :
    readPayload quoted len i ≠ .oob := by
  unfold readPayload
  split
  · simp
  · rename_i h
    rw [readBytes, if_pos (by omega)]
    simp

theorem pcrSelLoop_ne_oob (quoted : List Nat) (count i : Nat) :
    pcrSelLoop quoted count i ≠ .oob := by
  induction count generalizing i with
  | zero => simp [pcrSelLoop]
  | succ n ih =>
    unfold pcrSelLoop
    split
    · simp
    · exact absurd ‹_› (readHdr_ne_oob _ _ _)
    · split
      · simp
      · exact absurd ‹_› (readHdr_ne_oob _ _ _)
      · split
        · simp
        · exact ih _

theorem quote_ne_oob (quoted : List Nat) (d e : TPM2B) :
    tpm2_util_get_digest_from_quote quoted d e ≠ .oob := by
  intro h
  unfold tpm2_util_get_digest_from_quote at h
  split at h
  · simp at h
  · split at h
    · repeat' split at h
      any_goals exact absurd ‹_› (readHdr_ne_oob _ _ _)
      any_goals exact absurd ‹_› (readPayload_ne_oob _ _ _)
      any_goals exact absurd ‹_› (pcrSelLoop_ne_oob _ _ _)
      any_goals simp at h
      all_goals (split at h <;> (try split at h) <;> simp at h)
    · rename_i hcat
      exact hcat (List.take 4 (List.drop 0 quoted)) (List.take 2 (List.drop 4 quoted))
        (by rw [readBytes, if_pos (by omega)])
        (by rw [readBytes, if_pos (by omega)])

theorem readBytes_take (quoted : List Nat) (L off n : Nat)
    (h : off + n ≤ min L quoted.length) :
    readBytes (quoted.take L) off n = readBytes quoted off n := by
  unfold readBytes
  rw [List.length_take, if_pos h, if_pos (by omega)]
  rw [List.drop_take, List.take_take, min_eq_left (by omega)]

theorem readHdr_take_ok (quoted : List Nat) (L i w v : Nat)
    (h : readHdr (quoted.take L) i w = .ok v) : readHdr quoted i w = .ok v := by
  unfold readHdr at h ⊢
  rw [List.length_take] at h
  split at h
  · simp at h
  · rename_i hlt
    rw [readBytes_take quoted L i w (by omega)] at h
    rw [if_neg (by omega)]
    exact h

theorem readPayload_take_ok (quoted : List Nat) (L len i : Nat) (v : List Nat)
    (h : readPayload (quoted.take L) len i = .ok v) : readPayload quoted len i = .ok v := by
  unfold readPayload at h ⊢
  rw [List.length_take] at h
  split at h
  · simp at h
  · rename_i hlt
    rw [readBytes_take quoted L i len (by omega)] at h
    rw [if_neg (by omega)]
    exact h

theorem readHdr_ok_bound (quoted : List Nat) (i w v : Nat)
    (h : readHdr quoted i w = .ok v) : i + w < quoted.length := by
  unfold readHdr at h
  split at h
  · simp at h
  · omega

theorem pcrSelLoop_take_ok (quoted : List Nat) (L : Nat) :
    ∀ count i r, pcrSelLoop (quoted.take L) count i = .ok r →
      pcrSelLoop quoted count i = .ok r := by
  intro count
  induction count with
  | zero => intro i r h; simpa [pcrSelLoop] using h
  | succ n ih =>
    intro i r h
    unfold pcrSelLoop at h ⊢
    cases hh : readHdr (quoted.take L) i 2 with
    | err => rw [hh] at h; simp at h
    | oob => rw [hh] at h; simp at h
    | ok ha =>
      rw [hh] at h
      rw [readHdr_take_ok quoted L i 2 ha hh]
      dsimp only at h ⊢
      cases hs : readHdr (quoted.take L) (i + 2) 1 with
      | err => rw [hs] at h; simp at h
      | oob => rw [hs] at h; simp at h
      | ok sos =>
        rw [hs] at h
        rw [readHdr_take_ok quoted L (i + 2) 1 sos hs]
        dsimp only at h ⊢
        rw [List.length_take] at h
        split at h
        · simp at h
        · rename_i hc
          rw [if_neg (by omega)]
          exact ih _ _ h

theorem quote_take_ok (quoted : List Nat) (L : Nat) (d0 e0 d e : TPM2B) (o : Nat)
    (h : tpm2_util_get_digest_from_quote (quoted.take L) d0 e0 = .ok d e o) :
    tpm2_util_get_digest_from_quote quoted d0 e0 = .ok d e o ∧
      o + 2 < min L quoted.length := by
  unfold tpm2_util_get_digest_from_quote at h ⊢
  rw [List.length_take] at h
  split at h
  · simp at h
  · rename_i h6
    rw [readBytes_take quoted L 0 4 (by omega), readBytes_take quoted L 4 2 (by omega)] at h
    rw [if_neg (show ¬ quoted.length < 6 by omega)]
    cases hmb : readBytes quoted 0 4 with
    | none => rw [hmb] at h; simp at h
    | some mb =>
    cases htb : readBytes quoted 4 2 with
    | none => rw [hmb, htb] at h; simp at h
    | some tb =>
    rw [hmb, htb] at h
    dsimp only at h ⊢
    by_cases hm : beVal mb ≠ TPM2_GENERATED_VALUE
    · rw [if_pos hm] at h; simp at h
    · rw [if_neg hm] at h
      rw [if_neg hm]
      by_cases ht : beVal tb ≠ TPM2_ST_ATTEST_QUOTE
      · rw [if_pos ht] at h; simp at h
      · rw [if_neg ht] at h
        rw [if_neg ht]
        cases hns : readHdr (quoted.take L) 6 2 with
        | err => rw [hns] at h; simp at h
        | oob => rw [hns] at h; simp at h
        | ok ns =>
        rw [hns] at h
        rw [readHdr_take_ok quoted L 6 2 ns hns]
        dsimp only at h ⊢
        cases hes : readHdr (quoted.take L) (8 + ns) 2 with
        | err => rw [hes] at h; simp at h
        | oob => rw [hes] at h; simp at h
        | ok es =>
        rw [hes] at h
        rw [readHdr_take_ok quoted L (8 + ns) 2 es hes]
        dsimp only at h ⊢
        cases heb : readPayload (quoted.take L) es (8 + ns + 2) with
        | err => rw [heb] at h; simp at h
        | oob => rw [heb] at h; simp at h
        | ok ebytes =>
        rw [heb] at h
        rw [readPayload_take_ok quoted L es (8 + ns + 2) ebytes heb]
        dsimp only at h ⊢
        by_cases hck : 8 + ns + 2 + es + 17 ≥ min L quoted.length
        · rw [if_pos hck] at h; simp at h
        · rw [if_neg hck] at h
          rw [if_neg (show ¬ 8 + ns + 2 + es + 17 ≥ quoted.length by omega)]
          by_cases hfw : 8 + ns + 2 + es + 17 + 8 ≥ min L quoted.length
          · rw [if_pos hfw] at h; simp at h
          · rw [if_neg hfw] at h
            rw [if_neg (show ¬ 8 + ns + 2 + es + 17 + 8 ≥ quoted.length by omega)]
            cases hpc : readHdr (quoted.take L) (8 + ns + 2 + es + 17 + 8) 4 with
            | err => rw [hpc] at h; simp at h
            | oob => rw [hpc] at h; simp at h
            | ok cnt =>
            rw [hpc] at h
            rw [readHdr_take_ok quoted L (8 + ns + 2 + es + 17 + 8) 4 cnt hpc]
            dsimp only at h ⊢
            cases hlp : pcrSelLoop (quoted.take L) cnt (8 + ns + 2 + es + 17 + 8 + 4) with
            | err => rw [hlp] at h; simp at h
            | oob => rw [hlp] at h; simp at h
            | ok ipos =>
            rw [hlp] at h
            rw [pcrSelLoop_take_ok quoted L cnt (8 + ns + 2 + es + 17 + 8 + 4) ipos hlp]
            dsimp only at h ⊢
            cases hdg : readHdr (quoted.take L) ipos 2 with
            | err => rw [hdg] at h; simp at h
            | oob => rw [hdg] at h; simp at h
            | ok ds =>
            rw [hdg] at h
            rw [readHdr_take_ok quoted L ipos 2 ds hdg]
            dsimp only at h ⊢
            cases hdb : readPayload (quoted.take L) ds (ipos + 2) with
            | err => rw [hdb] at h; simp at h
            | oob => rw [hdb] at h; simp at h
            | ok dbytes =>
            rw [hdb] at h
            rw [readPayload_take_ok quoted L ds (ipos + 2) dbytes hdb]
            dsimp only at h ⊢
            have hb := readHdr_ok_bound (quoted.take L) ipos 2 ds hdg
            rw [List.length_take] at hb
            injection h with hA hB hio
            subst hio
            rw [hA, hB]
            exact ⟨rfl, by omega⟩

theorem quote_fail_digest_buffer (quoted : List Nat) (d0 e0 d1 e1 : TPM2B)
    (h : tpm2_util_get_digest_from_quote quoted d0 e0 = .fail d1 e1) :
    d1.buffer = d0.buffer := by
  unfold tpm2_util_get_digest_from_quote at h
  split at h
  · injection h with h1 h2
    rw [← h1]
  · split at h
    · dsimp only at h
      repeat' split at h
      any_goals (injection h with h1 h2; rw [← h1])
      any_goals simp at h
      all_goals
        (split at h <;> (try split at h) <;>
          first
          | (injection h with h1 h2; rw [← h1])
          | simp at h)
    · simp at h

theorem verify_digests_true_iff (a b : TPM2B) :
    tpm2_util_verify_digests a b = true ↔
      a.size = b.size ∧ ∀ k < a.size, a.buffer.getD k 0 = b.buffer.getD k 0 := by
  unfold tpm2_util_verify_digests
  split
  · rename_i hne
    simp [hne]
  · rename_i hs
    rw [not_not] at hs
    simp [hs, List.all_eq_true, List.mem_range]

/-- C1: the quote decoder never reads a byte outside the blob's bounds — every
`memcpy` from the blob is guarded by a bounds check, so the out-of-bounds
outcome is unreachable for every input — and truncating a well-formed blob at
any byte boundary strictly before the final digest field makes decode return
failure rather than success. -/
theorem C1_decoder_never_reads_out_of_bounds :
    (∀ (quoted : List Nat) (d0 e0 : TPM2B),
        tpm2_util_get_digest_from_quote quoted d0 e0 ≠ .oob) ∧
    (∀ (quoted : List Nat) (d0 e0 d e : TPM2B) (o L : Nat),
        tpm2_util_get_digest_from_quote quoted d0 e0 = .ok d e o → L < o →
        ∃ d1 e1,
          tpm2_util_get_digest_from_quote (quoted.take L) d0 e0 = .fail d1 e1) := by
  refine ⟨quote_ne_oob, ?_⟩
  intro quoted d0 e0 d e o L hok hLo
  cases hres : tpm2_util_get_digest_from_quote (quoted.take L) d0 e0 with
  | ok d1 e1 o1 =>
    exfalso
    obtain ⟨hq, hbound⟩ := quote_take_ok quoted L d0 e0 d1 e1 o1 hres
    rw [hok] at hq
    injection hq with h1 h2 h3
    omega
  | fail d1 e1 => exact ⟨d1, e1, rfl⟩
  | oob => exact absurd hres (quote_ne_oob _ _ _)

theorem C1_witness :
    ∃ d1 e1,
      tpm2_util_get_digest_from_quote (scenario1Blob.take 42) zeroTPM2B zeroTPM2B =
        .fail d1 e1 :=
  C1_decoder_never_reads_out_of_bounds.2 scenario1Blob zeroTPM2B zeroTPM2B
    ⟨32, List.replicate 32 0xaa ++ List.replicate 32 0⟩
    ⟨4, [0xde, 0xad, 0xbe, 0xef] ++ List.replicate 60 0⟩ 43 42
    (by decide) (by omega)

/-- C2: the decoder bounds the two retained fields only by the source blob's
length, never by the 64-byte (`sizeof(TPMU_HA)`) capacity of the destination
`TPM2B_DIGEST`/`TPM2B_DATA` buffers: `oversizedBlob` is accepted with a
declared digest length and extra-data length of 65, and decode writes that
many bytes into destinations whose arrays hold `sizeof_TPMU_HA` = 64 bytes. -/
theorem C2_decoder_overflows_destination_capacity :
    ∃ d e o,
      tpm2_util_get_digest_from_quote oversizedBlob zeroTPM2B zeroTPM2B =
        .ok d e o ∧
      sizeof_TPMU_HA < d.size ∧ sizeof_TPMU_HA < e.size ∧
      d.buffer.take d.size = List.replicate 65 0x24 ∧
      e.buffer.take e.size = List.replicate 65 0x42 ∧
      zeroTPM2B.buffer.length = sizeof_TPMU_HA :=
  ⟨⟨65, List.replicate 65 0x24⟩, ⟨65, List.replicate 65 0x42⟩, 104,
    by decide, by decide, by decide, by decide, by decide, by decide⟩

/-- C3: decoding the 77-byte scenario-1 blob succeeds; the extra-data output
has size 4 with bytes `0xDE 0xAD 0xBE 0xEF` and the digest output has size 32
with every byte `0xAA` (the outputs' buffers keep the zero bytes of the
64-byte caller arrays beyond the decoded sizes; the ghost offset of the digest
length field is 43). -/
theorem C3_scenario1_decodes :
    tpm2_util_get_digest_from_quote scenario1Blob zeroTPM2B zeroTPM2B =
      .ok ⟨32, List.replicate 32 0xaa ++ List.replicate 32 0⟩
        ⟨4, [0xde, 0xad, 0xbe, 0xef] ++ List.replicate 60 0⟩ 43 := by
  decide

/-- C5 counterexample: decode is not atomic with respect to its outputs — on
the scenario-1 blob truncated to its first 14 bytes (through the extra-data
bytes), decode fails at the clock-info check, yet the extra-data output has
already been overwritten with size 4 and bytes `0xDE 0xAD 0xBE 0xEF`. -/
theorem C5_counterexample_partial_extraData :
    ∃ d1 e1,
      tpm2_util_get_digest_from_quote (scenario1Blob.take 14) zeroTPM2B zeroTPM2B =
        .fail d1 e1 ∧ e1 ≠ zeroTPM2B :=
  ⟨zeroTPM2B, ⟨4, [0xde, 0xad, 0xbe, 0xef] ++ List.replicate 60 0⟩,
    by decide, by decide⟩

/-- C5 (amended): on failure decode returns false and the digest output's
buffer is never modified; however the extra-data output (size and bytes) and
the digest output's size field may already have been written by earlier
steps. -/
theorem C5_fail_preserves_digest_buffer (quoted : List Nat) (d0 e0 d1 e1 : TPM2B)
    (h : tpm2_util_get_digest_from_quote quoted d0 e0 = .fail d1 e1) :
    d1.buffer = d0.buffer :=
  quote_fail_digest_buffer quoted d0 e0 d1 e1 h

theorem C5_witness :
    (zeroTPM2B.buffer = zeroTPM2B.buffer) :=
  C5_fail_preserves_digest_buffer (scenario1Blob.take 14) zeroTPM2B zeroTPM2B
    zeroTPM2B ⟨4, [0xde, 0xad, 0xbe, 0xef] ++ List.replicate 60 0⟩ (by decide)

/-- C7: any blob of at least 6 bytes whose first four bytes, read as a
big-endian UINT32, differ from `TPM2_GENERATED_VALUE` is rejected with the
out-parameters untouched, irrespective of every byte beyond the 6-byte
header. -/
theorem C7_bad_magic_rejected (quoted : List Nat) (d0 e0 : TPM2B)
    (hlen : 6 ≤ quoted.length)
    (hmagic : beVal (quoted.take 4) ≠ TPM2_GENERATED_VALUE) :
    tpm2_util_get_digest_from_quote quoted d0 e0 = .fail d0 e0 := by
  unfold tpm2_util_get_digest_from_quote
  rw [if_neg (by omega)]
  have hmb : readBytes quoted 0 4 = some (quoted.take 4) := by
    unfold readBytes
    rw [if_pos (by omega), List.drop_zero]
  have htb : readBytes quoted 4 2 = some ((quoted.drop 4).take 2) := by
    unfold readBytes
    rw [if_pos (by omega)]
  rw [hmb, htb]
  dsimp only
  rw [if_pos hmagic]

theorem C7_witness :
    tpm2_util_get_digest_from_quote ([0, 0, 0, 0] ++ scenario1Blob.drop 4)
      zeroTPM2B zeroTPM2B = .fail zeroTPM2B zeroTPM2B :=
  C7_bad_magic_rejected ([0, 0, 0, 0] ++ scenario1Blob.drop 4) zeroTPM2B zeroTPM2B
    (by decide) (by decide)

/-- C6: every fixed-width header read after the magic/type pair goes through
`readHdr` (name length, extra-data length, PCR-selection count, per-selection
hash id and bitmap size, digest length — widths 2, 2, 4, 2, 1, 2 at their
call sites in `tpm2_util_get_digest_from_quote` and `pcrSelLoop`), which
fails exactly when `offset + width >= size`, so a header whose bytes exactly
fill the buffer to its last byte is rejected; the two length-prefixed payload
copies go through `readPayload`, which fails exactly when
`declared-length + offset > size`, accepting a payload that ends at the last
byte.  Concretely, truncating the scenario-1 blob to 45 bytes leaves the
2-byte digest length header exactly filling the buffer and decode fails,
while the full blob's digest payload ends exactly at byte 77 and decode
succeeds. -/
theorem C6_header_vs_payload_bounds :
    (∀ (quoted : List Nat) (i width : Nat),
        readHdr quoted i width = .err ↔ i + width ≥ quoted.length) ∧
    (∀ (quoted : List Nat) (len i : Nat),
        readPayload quoted len i = .err ↔ len + i > quoted.length) ∧
    (tpm2_util_get_digest_from_quote (scenario1Blob.take 45) zeroTPM2B zeroTPM2B =
      .fail zeroTPM2B ⟨4, [0xde, 0xad, 0xbe, 0xef] ++ List.replicate 60 0⟩) ∧
    (∃ d e o,
      tpm2_util_get_digest_from_quote scenario1Blob zeroTPM2B zeroTPM2B =
        .ok d e o) := by
  refine ⟨?_, ?_, by decide, ?_⟩
  · intro quoted i width
    unfold readHdr
    split
    · rename_i hc
      simp [hc]
    · rename_i hc
      rw [readBytes, if_pos (by omega)]
      simp [hc]
  · intro quoted len i
    unfold readPayload
    split
    · rename_i hc
      simp [hc]
    · rename_i hc
      rw [readBytes, if_pos (by omega)]
      simp [hc]
  · exact ⟨⟨32, List.replicate 32 0xaa ++ List.replicate 32 0⟩,
      ⟨4, [0xde, 0xad, 0xbe, 0xef] ++ List.replicate 60 0⟩, 43, by decide⟩

/-- C9: `tpm2_util_verify_digests` returns true exactly when the two digests
have equal sizes and agree on each of the first `size` bytes; it is
reflexive, symmetric, and false whenever the sizes differ. -/
theorem C9_verify_digests_properties :
    (∀ a b : TPM2B,
        tpm2_util_verify_digests a b = true ↔
          a.size = b.size ∧ ∀ k < a.size, a.buffer.getD k 0 = b.buffer.getD k 0) ∧
    (∀ d : TPM2B, tpm2_util_verify_digests d d = true) ∧
    (∀ a b : TPM2B,
        tpm2_util_verify_digests a b = tpm2_util_verify_digests b a) ∧
    (∀ a b : TPM2B, a.size ≠ b.size → tpm2_util_verify_digests a b = false) := by
  have key := verify_digests_true_iff
  refine ⟨key, fun d => (key d d).mpr ⟨rfl, fun k _ => rfl⟩, ?_, ?_⟩
  · intro a b
    by_cases hab : tpm2_util_verify_digests a b = true
    · obtain ⟨h1, h2⟩ := (key a b).mp hab
      have hba : tpm2_util_verify_digests b a = true :=
        (key b a).mpr ⟨h1.symm, fun k hk => (h2 k (h1 ▸ hk)).symm⟩
      rw [hab, hba]
    · by_cases hba : tpm2_util_verify_digests b a = true
      · obtain ⟨h1, h2⟩ := (key b a).mp hba
        exact absurd ((key a b).mpr
          ⟨h1.symm, fun k hk => (h2 k (h1 ▸ hk)).symm⟩) hab
      · rw [Bool.not_eq_true] at hab hba
        rw [hab, hba]
  · intro a b hne
    rw [← Bool.not_eq_true]
    intro hab
    exact hne ((key a b).mp hab).1

theorem C9_witness :
    tpm2_util_verify_digests ⟨1, [7]⟩ ⟨2, [7, 7]⟩ = false :=
  C9_verify_digests_properties.2.2.2 ⟨1, [7]⟩ ⟨2, [7, 7]⟩ (by decide)

theorem byte_div_mod (M a L c : Nat) (hc : 0 < c) (hL : L < c) (ha : a < 256) :
    (M * (256 * c) + (a * c + L)) / c % 256 = a := by
  have h1 : M * (256 * c) + (a * c + L) = L + (M * 256 + a) * c := by ring
  rw [h1, Nat.add_mul_div_right _ _ hc, Nat.div_eq_of_lt hL, Nat.zero_add,
    Nat.mul_add_mod', Nat.mod_eq_of_lt ha]

theorem byte_mod (M a : Nat) (ha : a < 256) : (M * 256 + a) % 256 = a := by
  rw [Nat.mul_add_mod', Nat.mod_eq_of_lt ha]

theorem endian_swap_16_involutive(x : Nat) (h : x < 65536) :
    tpm2_util_endian_swap_16 (tpm2_util_endian_swap_16 x) = x := by
  unfold tpm2_util_endian_swap_16
  have e0 : (x % 256 * 256 + x / 256 % 256) % 256 = x / 256 % 256 := by
    rw [show x % 256 * 256 + x / 256 % 256 = x % 256 * 256 + x / 256 % 256 from rfl]
    exact byte_mod (x % 256) (x / 256 % 256) (by omega)
  have e1 : (x % 256 * 256 + x / 256 % 256) / 256 % 256 = x % 256 := by
    rw [show x % 256 * 256 + x / 256 % 256 =
      0 * (256 * 256) + (x % 256 * 256 + x / 256 % 256) by ring]
    exact byte_div_mod 0 (x % 256) (x / 256 % 256) 256 (by omega) (by omega) (by omega)
  rw [e0, e1]
  clear e0 e1
  omega

theorem endian_swap_32_involutive (x : Nat) (h : x < 4294967296) :
    tpm2_util_endian_swap_32 (tpm2_util_endian_swap_32 x) = x := by
  unfold tpm2_util_endian_swap_32
  have e0 : (x % 256 * 16777216 + x / 256 % 256 * 65536 +
      x / 65536 % 256 * 256 + x / 16777216 % 256) % 256 = x / 16777216 % 256 := by
    rw [show x % 256 * 16777216 + x / 256 % 256 * 65536 +
        x / 65536 % 256 * 256 + x / 16777216 % 256 =
      (x % 256 * 65536 + x / 256 % 256 * 256 + x / 65536 % 256) * 256 +
        x / 16777216 % 256 by ring]
    exact byte_mod _ _ (by omega)
  have e1 : (x % 256 * 16777216 + x / 256 % 256 * 65536 +
      x / 65536 % 256 * 256 + x / 16777216 % 256) / 256 % 256 = x / 65536 % 256 := by
    rw [show x % 256 * 16777216 + x / 256 % 256 * 65536 +
        x / 65536 % 256 * 256 + x / 16777216 % 256 =
      (x % 256 * 256 + x / 256 % 256) * (256 * 256) +
        (x / 65536 % 256 * 256 + x / 16777216 % 256) by ring]
    exact byte_div_mod _ _ _ 256 (by omega) (by omega) (by omega)
  have e2 : (x % 256 * 16777216 + x / 256 % 256 * 65536 +
      x / 65536 % 256 * 256 + x / 16777216 % 256) / 65536 % 256 = x / 256 % 256 := by
    rw [show x % 256 * 16777216 + x / 256 % 256 * 65536 +
        x / 65536 % 256 * 256 + x / 16777216 % 256 =
      (x % 256) * (256 * 65536) +
        (x / 256 % 256 * 65536 + (x / 65536 % 256 * 256 + x / 16777216 % 256)) by ring]
    exact byte_div_mod _ _ _ 65536 (by omega) (by omega) (by omega)
  have e3 : (x % 256 * 16777216 + x / 256 % 256 * 65536 +
      x / 65536 % 256 * 256 + x / 16777216 % 256) / 16777216 % 256 = x % 256 := by
    rw [show x % 256 * 16777216 + x / 256 % 256 * 65536 +
        x / 65536 % 256 * 256 + x / 16777216 % 256 =
      0 * (256 * 16777216) + (x % 256 * 16777216 +
        (x / 256 % 256 * 65536 + x / 65536 % 256 * 256 + x / 16777216 % 256)) by ring]
    exact byte_div_mod _ _ _ 16777216 (by omega) (by omega) (by omega)
  rw [e0, e1, e2, e3]
  clear e0 e1 e2 e3
  omega

theorem endian_swap_64_involutive (x : Nat) (h : x < 18446744073709551616) :
    tpm2_util_endian_swap_64 (tpm2_util_endian_swap_64 x) = x := by
  unfold tpm2_util_endian_swap_64
  have e0 : (x % 256 * 72057594037927936 + x / 256 % 256 * 281474976710656 +
      x / 65536 % 256 * 1099511627776 + x / 16777216 % 256 * 4294967296 +
      x / 4294967296 % 256 * 16777216 + x / 1099511627776 % 256 * 65536 +
      x / 281474976710656 % 256 * 256 + x / 72057594037927936 % 256) % 256 =
      x / 72057594037927936 % 256 := by
    rw [show x % 256 * 72057594037927936 + x / 256 % 256 * 281474976710656 +
      x / 65536 % 256 * 1099511627776 + x / 16777216 % 256 * 4294967296 +
      x / 4294967296 % 256 * 16777216 + x / 1099511627776 % 256 * 65536 +
      x / 281474976710656 % 256 * 256 + x / 72057594037927936 % 256 =
      (x % 256 * 281474976710656 + x / 256 % 256 * 1099511627776 +
        x / 65536 % 256 * 4294967296 + x / 16777216 % 256 * 16777216 +
        x / 4294967296 % 256 * 65536 + x / 1099511627776 % 256 * 256 +
        x / 281474976710656 % 256) * 256 + x / 72057594037927936 % 256 by ring]
    exact byte_mod _ _ (by omega)
  have e1 : (x % 256 * 72057594037927936 + x / 256 % 256 * 281474976710656 +
      x / 65536 % 256 * 1099511627776 + x / 16777216 % 256 * 4294967296 +
      x / 4294967296 % 256 * 16777216 + x / 1099511627776 % 256 * 65536 +
      x / 281474976710656 % 256 * 256 + x / 72057594037927936 % 256) / 256 % 256 =
      x / 281474976710656 % 256 := by
    rw [show x % 256 * 72057594037927936 + x / 256 % 256 * 281474976710656 +
      x / 65536 % 256 * 1099511627776 + x / 16777216 % 256 * 4294967296 +
      x / 4294967296 % 256 * 16777216 + x / 1099511627776 % 256 * 65536 +
      x / 281474976710656 % 256 * 256 + x / 72057594037927936 % 256 =
      (x % 256 * 1099511627776 + x / 256 % 256 * 4294967296 +
        x / 65536 % 256 * 16777216 + x / 16777216 % 256 * 65536 +
        x / 4294967296 % 256 * 256 + x / 1099511627776 % 256) * (256 * 256) +
      (x / 281474976710656 % 256 * 256 + x / 72057594037927936 % 256) by ring]
    exact byte_div_mod _ _ _ 256 (by omega) (by omega) (by omega)
  have e2 : (x % 256 * 72057594037927936 + x / 256 % 256 * 281474976710656 +
      x / 65536 % 256 * 1099511627776 + x / 16777216 % 256 * 4294967296 +
      x / 4294967296 % 256 * 16777216 + x / 1099511627776 % 256 * 65536 +
      x / 281474976710656 % 256 * 256 + x / 72057594037927936 % 256) / 65536 % 256 =
      x / 1099511627776 % 256 := by
    rw [show x % 256 * 72057594037927936 + x / 256 % 256 * 281474976710656 +
      x / 65536 % 256 * 1099511627776 + x / 16777216 % 256 * 4294967296 +
      x / 4294967296 % 256 * 16777216 + x / 1099511627776 % 256 * 65536 +
      x / 281474976710656 % 256 * 256 + x / 72057594037927936 % 256 =
      (x % 256 * 4294967296 + x / 256 % 256 * 16777216 +
        x / 65536 % 256 * 65536 + x / 16777216 % 256 * 256 +
        x / 4294967296 % 256) * (256 * 65536) +
      (x / 1099511627776 % 256 * 65536 +
        (x / 281474976710656 % 256 * 256 + x / 72057594037927936 % 256)) by ring]
    exact byte_div_mod _ _ _ 65536 (by omega) (by omega) (by omega)
  have e3 : (x % 256 * 72057594037927936 + x / 256 % 256 * 281474976710656 +
      x / 65536 % 256 * 1099511627776 + x / 16777216 % 256 * 4294967296 +
      x / 4294967296 % 256 * 16777216 + x / 1099511627776 % 256 * 65536 +
      x / 281474976710656 % 256 * 256 + x / 72057594037927936 % 256) / 16777216 % 256 =
      x / 4294967296 % 256 := by
    rw [show x % 256 * 72057594037927936 + x / 256 % 256 * 281474976710656 +
      x / 65536 % 256 * 1099511627776 + x / 16777216 % 256 * 4294967296 +
      x / 4294967296 % 256 * 16777216 + x / 1099511627776 % 256 * 65536 +
      x / 281474976710656 % 256 * 256 + x / 72057594037927936 % 256 =
      (x % 256 * 16777216 + x / 256 % 256 * 65536 +
        x / 65536 % 256 * 256 + x / 16777216 % 256) * (256 * 16777216) +
      (x / 4294967296 % 256 * 16777216 +
        (x / 1099511627776 % 256 * 65536 + x / 281474976710656 % 256 * 256 +
          x / 72057594037927936 % 256)) by ring]
    exact byte_div_mod _ _ _ 16777216 (by omega) (by omega) (by omega)
  have e4 : (x % 256 * 72057594037927936 + x / 256 % 256 * 281474976710656 +
      x / 65536 % 256 * 1099511627776 + x / 16777216 % 256 * 4294967296 +
      x / 4294967296 % 256 * 16777216 + x / 1099511627776 % 256 * 65536 +
      x / 281474976710656 % 256 * 256 + x / 72057594037927936 % 256) / 4294967296 % 256 =
      x / 16777216 % 256 := by
    rw [show x % 256 * 72057594037927936 + x / 256 % 256 * 281474976710656 +
      x / 65536 % 256 * 1099511627776 + x / 16777216 % 256 * 4294967296 +
      x / 4294967296 % 256 * 16777216 + x / 1099511627776 % 256 * 65536 +
      x / 281474976710656 % 256 * 256 + x / 72057594037927936 % 256 =
      (x % 256 * 65536 + x / 256 % 256 * 256 + x / 65536 % 256) *
        (256 * 4294967296) +
      (x / 16777216 % 256 * 4294967296 +
        (x / 4294967296 % 256 * 16777216 + x / 1099511627776 % 256 * 65536 +
          x / 281474976710656 % 256 * 256 + x / 72057594037927936 % 256)) by ring]
    exact byte_div_mod _ _ _ 4294967296 (by omega) (by omega) (by omega)
  have e5 : (x % 256 * 72057594037927936 + x / 256 % 256 * 281474976710656 +
      x / 65536 % 256 * 1099511627776 + x / 16777216 % 256 * 4294967296 +
      x / 4294967296 % 256 * 16777216 + x / 1099511627776 % 256 * 65536 +
      x / 281474976710656 % 256 * 256 + x / 72057594037927936 % 256) / 1099511627776 % 256 =
      x / 65536 % 256 := by
    rw [show x % 256 * 72057594037927936 + x / 256 % 256 * 281474976710656 +
      x / 65536 % 256 * 1099511627776 + x / 16777216 % 256 * 4294967296 +
      x / 4294967296 % 256 * 16777216 + x / 1099511627776 % 256 * 65536 +
      x / 281474976710656 % 256 * 256 + x / 72057594037927936 % 256 =
      (x % 256 * 256 + x / 256 % 256) * (256 * 1099511627776) +
      (x / 65536 % 256 * 1099511627776 +
        (x / 16777216 % 256 * 4294967296 + x / 4294967296 % 256 * 16777216 +
          x / 1099511627776 % 256 * 65536 + x / 281474976710656 % 256 * 256 +
          x / 72057594037927936 % 256)) by ring]
    exact byte_div_mod _ _ _ 1099511627776 (by omega) (by omega) (by omega)
  have e6 : (x % 256 * 72057594037927936 + x / 256 % 256 * 281474976710656 +
      x / 65536 % 256 * 1099511627776 + x / 16777216 % 256 * 4294967296 +
      x / 4294967296 % 256 * 16777216 + x / 1099511627776 % 256 * 65536 +
      x / 281474976710656 % 256 * 256 + x / 72057594037927936 % 256) / 281474976710656 % 256 =
      x / 256 % 256 := by
    rw [show x % 256 * 72057594037927936 + x / 256 % 256 * 281474976710656 +
      x / 65536 % 256 * 1099511627776 + x / 16777216 % 256 * 4294967296 +
      x / 4294967296 % 256 * 16777216 + x / 1099511627776 % 256 * 65536 +
      x / 281474976710656 % 256 * 256 + x / 72057594037927936 % 256 =
      (x % 256) * (256 * 281474976710656) +
      (x / 256 % 256 * 281474976710656 +
        (x / 65536 % 256 * 1099511627776 + x / 16777216 % 256 * 4294967296 +
          x / 4294967296 % 256 * 16777216 + x / 1099511627776 % 256 * 65536 +
          x / 281474976710656 % 256 * 256 + x / 72057594037927936 % 256)) by ring]
    exact byte_div_mod _ _ _ 281474976710656 (by omega) (by omega) (by omega)
  have e7 : (x % 256 * 72057594037927936 + x / 256 % 256 * 281474976710656 +
      x / 65536 % 256 * 1099511627776 + x / 16777216 % 256 * 4294967296 +
      x / 4294967296 % 256 * 16777216 + x / 1099511627776 % 256 * 65536 +
      x / 281474976710656 % 256 * 256 + x / 72057594037927936 % 256) / 72057594037927936 % 256 =
      x % 256 := by
    rw [show x % 256 * 72057594037927936 + x / 256 % 256 * 281474976710656 +
      x / 65536 % 256 * 1099511627776 + x / 16777216 % 256 * 4294967296 +
      x / 4294967296 % 256 * 16777216 + x / 1099511627776 % 256 * 65536 +
      x / 281474976710656 % 256 * 256 + x / 72057594037927936 % 256 =
      0 * (256 * 72057594037927936) +
      (x % 256 * 72057594037927936 +
        (x / 256 % 256 * 281474976710656 + x / 65536 % 256 * 1099511627776 +
          x / 16777216 % 256 * 4294967296 + x / 4294967296 % 256 * 16777216 +
          x / 1099511627776 % 256 * 65536 + x / 281474976710656 % 256 * 256 +
          x / 72057594037927936 % 256)) by ring]
    exact byte_div_mod _ _ _ 72057594037927936 (by omega) (by omega) (by omega)
  rw [e0, e1, e2, e3, e4, e5, e6, e7]
  clear e0 e1 e2 e3 e4 e5 e6 e7
  omega

/-- C10: for every UINT16, UINT32 and UINT64 value, converting host-to-network
and back network-to-host is the identity, on both little-endian and big-endian
hosts. -/
theorem C10_ntoh_hton_roundtrip (is_big_endian : Bool) (x16 x32 x64 : Nat)
    (h16 : x16 < 65536) (h32 : x32 < 4294967296)
    (h64 : x64 < 18446744073709551616) :
    tpm2_util_ntoh_16 is_big_endian (tpm2_util_hton_16 is_big_endian x16) = x16 ∧
    tpm2_util_ntoh_32 is_big_endian (tpm2_util_hton_32 is_big_endian x32) = x32 ∧
    tpm2_util_ntoh_64 is_big_endian (tpm2_util_hton_64 is_big_endian x64) = x64 := by
  unfold tpm2_util_ntoh_16 tpm2_util_ntoh_32 tpm2_util_ntoh_64
  cases is_big_endian
  · simp only [tpm2_util_hton_16, tpm2_util_hton_32, tpm2_util_hton_64,
      Bool.false_eq_true, if_false]
    exact ⟨endian_swap_16_involutive x16 h16, endian_swap_32_involutive x32 h32,
      endian_swap_64_involutive x64 h64⟩
  · simp [tpm2_util_hton_16, tpm2_util_hton_32, tpm2_util_hton_64]

theorem C10_witness :
    tpm2_util_ntoh_16 false (tpm2_util_hton_16 false 65535) = 65535 ∧
    tpm2_util_ntoh_32 false (tpm2_util_hton_32 false 4294967295) = 4294967295 ∧
    tpm2_util_ntoh_64 false
        (tpm2_util_hton_64 false 18446744073709551615) = 18446744073709551615 :=
  C10_ntoh_hton_roundtrip false 65535 4294967295 18446744073709551615
    (by omega) (by omega) (by omega)

/-- C4: whenever the external `RSA_verify` primitive reports failure on the
message hash and signature bytes, `verify_signature` rejects, and the nonce
comparison and the PCR-digest comparison are never evaluated: the rejection
holds for every value of the flags and of the four compared digests/nonces,
so the outcome cannot depend on them. -/
theorem C4_bad_signature_rejected_before_comparisons {κ : Type} (pk : κ)
    (halgid_from_tpmhalg : Nat → Nat)
    (RSA_verify : Nat → List Nat → Nat → List Nat → Nat → κ → Bool)
    (sigHash : Nat) (sig msgHash : TPM2B)
    (hfail : RSA_verify (halgid_from_tpmhalg sigHash) msgHash.buffer msgHash.size
        sig.buffer sig.size pk = false) :
    ∀ (flags_extra flags_pcr : Bool) (quoteExtraData extraData quoteHash pcrHash : TPM2B),
      verify_signature (some pk) halgid_from_tpmhalg RSA_verify
        ⟨TPM2_ALG_RSASSA, sigHash, sig, msgHash, flags_extra, flags_pcr,
          quoteExtraData, extraData, quoteHash, pcrHash⟩ = false := by
  intro fe fp qe e qh ph
  unfold verify_signature
  dsimp only
  rw [if_neg (by simp), if_pos hfail]

theorem C4_witness :
    verify_signature (some 0) (fun a => a) (fun _ _ _ _ _ _ => false)
      ⟨TPM2_ALG_RSASSA, 0, zeroTPM2B, zeroTPM2B, true, true,
        zeroTPM2B, zeroTPM2B, zeroTPM2B, zeroTPM2B⟩ = false :=
  C4_bad_signature_rejected_before_comparisons (κ := Nat) 0 (fun a => a)
    (fun _ _ _ _ _ _ => false) 0 zeroTPM2B zeroTPM2B rfl true true
    zeroTPM2B zeroTPM2B zeroTPM2B zeroTPM2B

/-- C8: for every signature whose scheme identifier differs from the single
supported `TPM2_ALG_RSASSA` scheme, `verify_signature` rejects without
invoking the external `RSA_verify` primitive: the result is false for every
choice of the primitive and of all other inputs. -/
theorem C8_non_rsassa_scheme_fails_closed {κ : Type} (pubKey : Option κ)
    (halgid_from_tpmhalg : Nat → Nat)
    (RSA_verify : Nat → List Nat → Nat → List Nat → Nat → κ → Bool)
    (ctx : tpm2_verifysig_ctx) (h : ctx.sigAlg ≠ TPM2_ALG_RSASSA) :
    verify_signature pubKey halgid_from_tpmhalg RSA_verify ctx = false := by
  unfold verify_signature
  cases pubKey with
  | none => rfl
  | some pk =>
    dsimp only
    rw [if_pos h]

theorem C8_witness :
    verify_signature (some 0) (fun a => a) (fun _ _ _ _ _ _ => true)
      ⟨0x16, 0, zeroTPM2B, zeroTPM2B, false, false,
        zeroTPM2B, zeroTPM2B, zeroTPM2B, zeroTPM2B⟩ = false :=
  C8_non_rsassa_scheme_fails_closed (κ := Nat) (some 0) (fun a => a)
    (fun _ _ _ _ _ _ => true)
    ⟨0x16, 0, zeroTPM2B, zeroTPM2B, false, false,
      zeroTPM2B, zeroTPM2B, zeroTPM2B, zeroTPM2B⟩ (by decide)
